import Mathlib

/-!
Shallow embedding of `src/frontend/api/OidcClient.ts` (simple-viewer-app).

The file models the session manager (`OidcClient`), its credential factory
(`createAccessToken`), the five protocol-engine lifecycle event handlers, the
`dispose`/`signIn`/`signOut` surface, and the asynchronous setup sequence run
from the constructor.  External collaborators (`oidc-client`'s `UserManager`,
`UserProfile`, `AccessToken.fromJsonWebTokenString`, configuration and URL
discovery) are modelled at their interface: plain field mapping for the value
constructors and `Except`-valued outcomes for the asynchronous steps, as the
design document scopes them ("field mapping only, no interesting logic").
-/

namespace OidcSpec

/-- Identity claims of a raw provider user record (`user.profile` in the
source).  Every field is optional: at runtime a missing claim is simply
`undefined`; the TypeScript non-null assertions (`email!`, `org_name!`, ...)
are erased during compilation and perform no check. -/
structure UserProfile where
  given_name : Option String
  family_name : Option String
  email : Option String
  sub : Option String
  org_name : Option String
  org : Option String
  ultimate_site : Option String
  usage_country_iso : Option String
deriving Repr, DecidableEq

/-- Raw user record delivered by the protocol engine (`oidc-client`'s `User`).
`expired` is the engine-computed flag consulted by the setup code
(`user.expired`); `expires_in` is optional in the engine's type, matching the
source's `user.expires_in!`. -/
structure User where
  access_token : String
  expires_at : Int
  expires_in : Option Int
  expired : Bool
  profile : UserProfile
deriving Repr, DecidableEq

/-- The application credential (`AccessToken` of `@bentley/imodeljs-clients`),
as populated by `AccessToken.fromJsonWebTokenString(jwt, userProfile,
startsAt, expiresAt)`.  `startsAt = none` models the invalid `Date` produced
when `user.expires_in` is `undefined` and `expires_at - undefined` evaluates
to `NaN`. -/
structure AccessToken where
  jwt : String
  startsAt : Option Int
  expiresAt : Int
  userProfile : UserProfile
deriving Repr, DecidableEq

/-- Embedding of the module-level `createAccessToken(user)`.  The source
computes `startsAt = new Date(user.expires_at - user.expires_in!)`,
`expiresAt = new Date(user.expires_at)`, and builds the `UserProfile` by
passing each claim of `user.profile` through positionally; the non-null
assertions are erased at runtime, so absent claims flow through unchecked and
no branch of the function can fail. -/
def createAccessToken (user : User) : AccessToken :=
  { jwt := user.access_token
    startsAt := user.expires_in.map (fun d => user.expires_at - d)
    expiresAt := user.expires_at
    userProfile := user.profile }

/-- The five lifecycle events the engine can raise, matching the five
`addUserLoaded`/`addSilentRenewError`/`addAccessTokenExpired`/
`addUserUnloaded`/`addUserSignedOut` registrations in `createUserManager`. -/
inductive LifecycleEvent where
  | userLoaded (user : User)
  | silentRenewError (msg : String)
  | accessTokenExpired
  | userUnloaded
  | userSignedOut
deriving Repr, DecidableEq

/-- Which of the five engine event registrations are currently in place.  All
five are added together in `createUserManager` and removed together in
`dispose`. -/
structure Subscriptions where
  userLoaded : Bool
  silentRenewError : Bool
  accessTokenExpired : Bool
  userUnloaded : Bool
  userSignedOut : Bool
deriving Repr, DecidableEq

/-- The manager's mutable fields: `_userManager` (absent until the engine is
attached; when present it carries the current event subscriptions) and the
credential slot `_accessToken`. -/
structure OidcClientState where
  userManager : Option Subscriptions
  accessToken : Option AccessToken
deriving Repr, DecidableEq

/-- State at construction, before any setup step has run. -/
def initialState : OidcClientState := { userManager := none, accessToken := none }

/-- Subscriptions immediately after `createUserManager` registered all five
handlers. -/
def allSubscribed : Subscriptions :=
  { userLoaded := true, silentRenewError := true, accessTokenExpired := true
    userUnloaded := true, userSignedOut := true }

/-- Embedding of `_onUserStateChanged(token, _reason)`: assign
`_accessToken = token` first; then, if `isLoading` (the current page path
equals the configured redirect path), return without raising the event;
otherwise raise `onUserStateChanged` with `token`.  The second component is
the list of notifications delivered to subscribers by this call. -/
def OidcClientState.onUserStateChanged (st : OidcClientState) (isLoading : Bool)
    (token : Option AccessToken) : OidcClientState × List (Option AccessToken) :=
  let st' := { st with accessToken := token }
  if isLoading then (st', []) else (st', [token])

/-- Dispatch of one engine lifecycle event through the five private handlers:
`_onUserLoaded` forwards `createAccessToken(user)` (with no expiry check),
and `_onError`, `_onUserExpired`, `_onUserUnloaded`, `_onUserSignedOut` all
forward `undefined`; every handler goes through `_onUserStateChanged`. -/
def OidcClientState.handleEvent (st : OidcClientState) (isLoading : Bool) :
    LifecycleEvent → OidcClientState × List (Option AccessToken)
  | .userLoaded u => st.onUserStateChanged isLoading (some (createAccessToken u))
  | .silentRenewError _ => st.onUserStateChanged isLoading none
  | .accessTokenExpired => st.onUserStateChanged isLoading none
  | .userUnloaded => st.onUserStateChanged isLoading none
  | .userSignedOut => st.onUserStateChanged isLoading none

/-- Process a sequence of engine lifecycle events in arrival order (the
single-threaded event loop delivers them one at a time), tracking the
resulting manager state. -/
def processEvents (st : OidcClientState) (isLoading : Bool) :
    List LifecycleEvent → OidcClientState
  | [] => st
  | e :: es => processEvents (st.handleEvent isLoading e).1 isLoading es

/-- Embedding of `dispose()`: `if (!this._userManager) return;`, otherwise
remove each of the five event registrations (`removeUserLoaded`,
`removeSilentRenewError`, `removeAccessTokenExpired`, `removeUserUnloaded`,
`removeUserSignedOut`).  The body never touches `_accessToken` and never
calls `raiseEvent`, so the notification component is always empty. -/
def OidcClientState.dispose (st : OidcClientState) :
    OidcClientState × List (Option AccessToken) :=
  match st.userManager with
  | none => (st, [])
  | some s =>
      ({ st with
          userManager := some
            { s with
                userLoaded := false, silentRenewError := false
                accessTokenExpired := false, userUnloaded := false
                userSignedOut := false } }, [])

/-- The two commands the manager can hand to the protocol engine
(`signinRedirect()` / `signoutRedirect()`), each starting a full-page
navigation. -/
inductive EngineCommand where
  | signinRedirect
  | signoutRedirect
deriving Repr, DecidableEq

/-- Embedding of `signIn()`: `if (!this._userManager) throw new
Error("OidcClient is not ready to be used yet")`, else hand
`signinRedirect()` to the engine.  The `Except.error` branch is the
synchronous throw: it reaches the caller before any engine command, so no
navigation is initiated. -/
def OidcClientState.signIn (st : OidcClientState) : Except String EngineCommand :=
  match st.userManager with
  | none => .error "OidcClient is not ready to be used yet"
  | some _ => .ok .signinRedirect

/-- Embedding of `signOut()`: same readiness guard as `signIn()`, handing
`signoutRedirect()` to the engine when attached. -/
def OidcClientState.signOut (st : OidcClientState) : Except String EngineCommand :=
  match st.userManager with
  | none => .error "OidcClient is not ready to be used yet"
  | some _ => .ok .signoutRedirect

/-- Outcomes of the asynchronous collaborators used during setup:
`discovery` is `createOidcSettings()` (dominated by the
`UrlDiscoveryClient.discoverUrl` call), `construct` is `new
UserManager(settings)`, and `getUserResult` is the engine's initial
`getUser()` query.  `isLoading` is whether the page path equals the
configured redirect path while the resulting transitions run. -/
structure SetupEnv where
  discovery : Except String Unit
  construct : Except String Unit
  getUserResult : Except String (Option User)
  isLoading : Bool
deriving Repr

/-- Observable outcome of running the constructor's setup sequence:
the manager state, the notifications raised, the messages the manager itself
logged via `console.error`, how many times `getUser()` was invoked, and how
the `_ready` promise settled (`readyResolved` / `readyRejected`; both false
means `_ready` is still pending). -/
structure SetupResult where
  state : OidcClientState
  notifications : List (Option AccessToken)
  logged : List String
  getUserCalls : Nat
  readyResolved : Bool
  readyRejected : Bool
deriving Repr, DecidableEq

/-- Embedding of the constructor's setup:
`this._ready = new Promise(async (resolve) => { await this.createUserManager(); resolve(); })`
with `createUserManager = createOidcSettings().then(settings => {...})`.

If `createOidcSettings()` rejects, the `.then` callback is skipped, so
`createUserManager()` rejects, the `await` rethrows inside the promise
executor, and the rejection of the executor's async function is discarded by
the `Promise` constructor: `resolve()` never runs, nothing is logged by the
manager, and `_ready` is left forever pending (neither resolved nor
rejected).  A synchronous throw from `new UserManager(settings)` inside the
`.then` callback rejects the same chain with the same outcome.

On success the five handlers are registered and
`getUser().then(user => { if (user && !user.expired) this._onUserLoaded(user);
else this._onUserExpired(); }, this._onError)` is fired; `_onError` logs the
error and applies the `undefined`-token transition.  The redirect-callback
block (`signinRedirectCallback`/`signoutRedirectCallback`) only performs
navigation and is not part of the observable state modelled here.
`createUserManager()` then fulfills without awaiting the query, so
`resolve()` runs and `_ready` resolves. -/
def runSetup (env : SetupEnv) : SetupResult :=
  match env.discovery with
  | .error _ =>
      { state := initialState, notifications := [], logged := []
        getUserCalls := 0, readyResolved := false, readyRejected := false }
  | .ok _ =>
    match env.construct with
    | .error _ =>
        { state := initialState, notifications := [], logged := []
          getUserCalls := 0, readyResolved := false, readyRejected := false }
    | .ok _ =>
      let attached : OidcClientState :=
        { userManager := some allSubscribed, accessToken := none }
      match env.getUserResult with
      | .error e =>
          let r := attached.onUserStateChanged env.isLoading none
          { state := r.1, notifications := r.2, logged := [e]
            getUserCalls := 1, readyResolved := true, readyRejected := false }
      | .ok userOpt =>
          let r :=
            match userOpt with
            | some u =>
                if !u.expired then
                  attached.onUserStateChanged env.isLoading
                    (some (createAccessToken u))
                else attached.onUserStateChanged env.isLoading none
            | none => attached.onUserStateChanged env.isLoading none
          { state := r.1, notifications := r.2, logged := []
            getUserCalls := 1, readyResolved := true, readyRejected := false }

/-- Manager state right after `createUserManager` attached the engine and
registered the five handlers, before any transition ran. -/
def attachedState : OidcClientState :=
  { userManager := some allSubscribed, accessToken := none }

/-- Concrete unexpired raw user for scenario-style witnesses:
`expires_in = 3600`, `expires_at = 1700000000`, all claims present. -/
def scenarioAUser : User :=
  { access_token := "jwt-a", expires_at := 1700000000, expires_in := some 3600
    expired := false
    profile :=
      { given_name := some "Ada", family_name := some "Lovelace"
        email := some "ada@example.com", sub := some "user-1"
        org_name := some "Acme", org := some "org-1"
        ultimate_site := some "site-1", usage_country_iso := some "GB" } }

/-- Concrete raw user whose required claims (email, subject id) are absent. -/
def missingClaimsUser : User :=
  { access_token := "jwt-b", expires_at := 1700000000, expires_in := some 3600
    expired := false
    profile :=
      { given_name := some "Bob", family_name := some "Builder"
        email := none, sub := none
        org_name := none, org := none
        ultimate_site := none, usage_country_iso := none } }

/-- Concrete raw user already expired when the engine raises user-loaded. -/
def expiredLoadedUser : User :=
  { access_token := "jwt-c", expires_at := 1000, expires_in := some 3600
    expired := true
    profile :=
      { given_name := some "Eve", family_name := some "Expired"
        email := some "eve@example.com", sub := some "user-3"
        org_name := some "Acme", org := some "org-1"
        ultimate_site := some "site-1", usage_country_iso := some "US" } }

/-- Setup environment in which every asynchronous step succeeds and the
initial query returns the unexpired `scenarioAUser`. -/
def setupEnvA : SetupEnv :=
  { discovery := .ok (), construct := .ok ()
    getUserResult := .ok (some scenarioAUser), isLoading := false }

/-- Setup environment in which authority discovery fails
(`createOidcSettings()` rejects). -/
def discoveryFailureEnv : SetupEnv :=
  { discovery := .error "discovery failed", construct := .ok ()
    getUserResult := .ok none, isLoading := false }

/-- Helper: `_onUserStateChanged` assigns the credential slot the same way
whether or not the redirect window is open; only the notification differs. -/
theorem onUserStateChanged_fst (st : OidcClientState) (loading : Bool)
    (t : Option AccessToken) :
    (st.onUserStateChanged loading t).1 = { st with accessToken := t } := by
  cases loading <;> rfl

/-- C3: a transition triggered while the current page path equals the
configured redirect path delivers no notification to subscribers, yet leaves
the manager in exactly the state a normal transition would (the credential
slot is still updated); a transition while the path does not match is
delivered normally, as a single notification carrying the new slot value. -/
theorem redirect_window_suppresses_notification (st : OidcClientState)
    (e : LifecycleEvent) :
    (st.handleEvent true e).2 = [] ∧
    (st.handleEvent true e).1 = (st.handleEvent false e).1 ∧
    (st.handleEvent false e).2 = [(st.handleEvent false e).1.accessToken] := by
  cases e <;>
    simp [OidcClientState.handleEvent, OidcClientState.onUserStateChanged]

/-- C9: every notification delivered by a lifecycle-event transition carries
exactly the value the `accessToken` accessor returns once the handler has
run: the credential slot is assigned before the event is raised. -/
theorem notification_matches_accessToken (st : OidcClientState) (loading : Bool)
    (e : LifecycleEvent) (v : Option AccessToken)
    (hv : v ∈ (st.handleEvent loading e).2) :
    v = (st.handleEvent loading e).1.accessToken := by
  cases loading <;> cases e <;>
    simp_all [OidcClientState.handleEvent, OidcClientState.onUserStateChanged]

/-- Witness for C9 at a concrete transition: the expired event outside the
redirect window notifies `none`, which is what `accessToken` then returns. -/
theorem notification_matches_accessToken_witness :
    (none : Option AccessToken) =
      ((attachedState.handleEvent false .accessTokenExpired).1).accessToken :=
  notification_matches_accessToken attachedState false .accessTokenExpired none
    (by decide)

/-- C10: `dispose()` neither modifies the stored credential nor raises any
notification: `accessToken` reads the same value after the call as before,
and subscribers receive no event from it. -/
theorem dispose_preserves_credential_and_is_silent (st : OidcClientState) :
    (st.dispose).1.accessToken = st.accessToken ∧ (st.dispose).2 = [] := by
  obtain ⟨um, tok⟩ := st
  cases um <;> simp [OidcClientState.dispose]

/-- C8: `dispose()` is idempotent and unconditionally safe: running it twice
gives the same state as running it once; before the engine is attached it is
a no-op (and raises nothing); and once the engine is attached it removes all
five lifecycle-event subscriptions, leaving none dangling. -/
theorem dispose_idempotent_and_safe (st : OidcClientState) (s : Subscriptions)
    (t : Option AccessToken) :
    ((st.dispose).1.dispose).1 = (st.dispose).1 ∧
    (OidcClientState.mk none t).dispose = (OidcClientState.mk none t, []) ∧
    ((OidcClientState.mk (some s) t).dispose).1.userManager =
      some (Subscriptions.mk false false false false false) := by
  refine ⟨?_, rfl, rfl⟩
  obtain ⟨um, tok⟩ := st
  cases um <;> rfl

/-- C5: calling `signIn()` or `signOut()` before the engine has been attached
(the readiness gate has not resolved) fails synchronously with the
precondition error "OidcClient is not ready to be used yet"; the error branch
hands no command to the engine, so no navigation side effect occurs and the
call never silently no-ops. -/
theorem signIn_signOut_before_ready_error (st : OidcClientState)
    (h : st.userManager = none) :
    st.signIn = .error "OidcClient is not ready to be used yet" ∧
    st.signOut = .error "OidcClient is not ready to be used yet" := by
  obtain ⟨um, tok⟩ := st
  cases um with
  | none => exact ⟨rfl, rfl⟩
  | some s => simp at h

/-- Witness for C5 at the freshly constructed manager, whose engine is not
yet attached. -/
theorem signIn_signOut_before_ready_error_witness :
    initialState.signIn = .error "OidcClient is not ready to be used yet" ∧
    initialState.signOut = .error "OidcClient is not ready to be used yet" :=
  signIn_signOut_before_ready_error initialState rfl

/-- C1 counterexample: the claim says a user-loaded event carrying an
already-expired raw user leaves the state Unauthenticated, but
`_onUserLoaded` performs no expiry check: processing a single user-loaded
event with `expiredLoadedUser` (whose `expired` flag is true) leaves the
manager Authenticated with that user's credential, not Unauthenticated. -/
theorem expired_user_loaded_still_authenticated :
    expiredLoadedUser.expired = true ∧
    (processEvents attachedState false
        [LifecycleEvent.userLoaded expiredLoadedUser]).accessToken
      = some (createAccessToken expiredLoadedUser) :=
  ⟨rfl, rfl⟩

/-- C1 amended: after processing any sequence of lifecycle events, the state
is Authenticated(createAccessToken u) iff the most recent event was
user-loaded(u) — regardless of whether u was expired — and Unauthenticated
after any other most-recent event; an empty sequence leaves the slot as it
was. -/
theorem state_determined_by_last_event (st : OidcClientState) (loading : Bool)
    (events : List LifecycleEvent) :
    (processEvents st loading events).accessToken =
      match events.getLast? with
      | some (.userLoaded u) => some (createAccessToken u)
      | some _ => none
      | none => st.accessToken := by
  induction events generalizing st with
  | nil => rfl
  | cons e es ih =>
    cases es with
    | nil => cases e <;> cases loading <;> rfl
    | cons e2 es2 =>
      show (processEvents (st.handleEvent loading e).1 loading
        (e2 :: es2)).accessToken = _
      rw [ih, List.getLast?_cons_cons]
      rcases h3 : (e2 :: es2).getLast? with _ | e3
      · exact absurd h3 (by simp [List.getLast?_eq_none_iff])
      · cases e3 <;> rfl

/-- C4 counterexample: for a raw user whose email and subject-id claims are
both absent, the factory does not fail — the non-null assertions are erased
at runtime — and it returns a complete Credential with the absent claims
carried through. -/
theorem missing_claims_produce_credential :
    missingClaimsUser.profile.email = none ∧
    missingClaimsUser.profile.sub = none ∧
    createAccessToken missingClaimsUser =
      { jwt := "jwt-b", startsAt := some (1700000000 - 3600)
        expiresAt := 1700000000, userProfile := missingClaimsUser.profile } :=
  ⟨rfl, rfl, rfl⟩

/-- C4 amended: the factory performs no required-claim validation: even when
the subject id or email claim is absent it produces a Credential, copying
the profile (absences included) verbatim rather than raising an error. -/
theorem createAccessToken_no_claim_validation (user : User)
    (_h : user.profile.email = none ∨ user.profile.sub = none) :
    (createAccessToken user).userProfile = user.profile :=
  rfl

/-- Witness for the amended C4 at a concrete record missing both claims. -/
theorem createAccessToken_no_claim_validation_witness :
    (createAccessToken missingClaimsUser).userProfile = missingClaimsUser.profile :=
  createAccessToken_no_claim_validation missingClaimsUser (Or.inl rfl)

/-- C6: credential construction is a deterministic pure function of the raw
record: it yields the identical Credential on every invocation, with start
timestamp `expires_at - expires_in` (validity window
`[expiry - duration, expiry]`), the expiry timestamp, the token string, and
every identity claim copied verbatim. -/
theorem createAccessToken_deterministic_window (user : User) (d : Int)
    (h : user.expires_in = some d) :
    createAccessToken user = createAccessToken user ∧
    (createAccessToken user).startsAt = some (user.expires_at - d) ∧
    (createAccessToken user).expiresAt = user.expires_at ∧
    (createAccessToken user).userProfile = user.profile ∧
    (createAccessToken user).jwt = user.access_token := by
  refine ⟨rfl, ?_, rfl, rfl, rfl⟩
  simp [createAccessToken, h]

/-- Witness for C6, scenario A: `expires_in = 3600`, `expires_at = T`; the
credential's validity window is `[T - 3600, T]`. -/
theorem createAccessToken_deterministic_window_witness :
    (createAccessToken scenarioAUser).startsAt
        = some (scenarioAUser.expires_at - 3600) ∧
    (createAccessToken scenarioAUser).expiresAt = scenarioAUser.expires_at :=
  ⟨(createAccessToken_deterministic_window scenarioAUser 3600 rfl).2.1,
   (createAccessToken_deterministic_window scenarioAUser 3600 rfl).2.2.1⟩

/-- C7: when setup reaches the engine (discovery and construction succeed),
the engine's current user is queried exactly once; a present, unexpired user
yields the loaded transition (Authenticated with that user's credential),
while an absent or expired user yields the expired transition
(Unauthenticated). -/
theorem setup_queries_user_once (env : SetupEnv)
    (hd : env.discovery = Except.ok ()) (hc : env.construct = Except.ok ()) :
    (runSetup env).getUserCalls = 1 ∧
    (∀ u, env.getUserResult = Except.ok (some u) → u.expired = false →
      (runSetup env).state.accessToken = some (createAccessToken u)) ∧
    (∀ u, env.getUserResult = Except.ok (some u) → u.expired = true →
      (runSetup env).state.accessToken = none) ∧
    (env.getUserResult = Except.ok none →
      (runSetup env).state.accessToken = none) := by
  obtain ⟨disc, ctor, gu, loading⟩ := env
  cases disc with
  | error e => simp at hd
  | ok u1 =>
    cases ctor with
    | error e => simp at hc
    | ok u2 =>
      cases gu with
      | error e =>
          refine ⟨rfl, ?_, ?_, ?_⟩
          · intro u h; simp at h
          · intro u h; simp at h
          · intro h; simp at h
      | ok uo =>
        cases uo with
        | none =>
            refine ⟨rfl, ?_, ?_, ?_⟩
            · intro u h; simp at h
            · intro u h; simp at h
            · intro _; cases loading <;> rfl
        | some u0 =>
            refine ⟨rfl, ?_, ?_, ?_⟩
            · intro u h hexp
              obtain rfl : u0 = u := by simpa using h
              simp [runSetup, hexp, onUserStateChanged_fst]
            · intro u h hexp
              obtain rfl : u0 = u := by simpa using h
              simp [runSetup, hexp, onUserStateChanged_fst]
            · intro h; simp at h

/-- Witness for C7 on the all-success environment returning the unexpired
`scenarioAUser`. -/
theorem setup_queries_user_once_witness :
    (runSetup setupEnvA).getUserCalls = 1 ∧
    (runSetup setupEnvA).state.accessToken
      = some (createAccessToken scenarioAUser) :=
  ⟨(setup_queries_user_once setupEnvA rfl rfl).1,
   (setup_queries_user_once setupEnvA rfl rfl).2.1 scenarioAUser rfl rfl⟩

/-- C2 (code bug): when authority discovery fails, the rejection escapes the
async promise executor, so the manager logs nothing and `_ready` never
settles — it is neither resolved nor rejected — contrary to the claim that
the error is logged and readiness still resolves.  (The state does remain
Unauthenticated, and `_ready` indeed exposes no error path.) -/
theorem setup_discovery_failure_leaves_ready_pending :
    (runSetup discoveryFailureEnv).readyResolved = false ∧
    (runSetup discoveryFailureEnv).readyRejected = false ∧
    (runSetup discoveryFailureEnv).logged = [] ∧
    (runSetup discoveryFailureEnv).state = initialState :=
  ⟨rfl, rfl, rfl, rfl⟩

end OidcSpec
